import Mathlib

/-!
Verification of the boot-service iPXE boot script engine.

The definitions below are a shallow embedding of the Go sources:
`pkg/controllers/bootscript/controller.go` (identifier classification, node
resolution, configuration scoring and selection, script generation),
`pkg/resources/bootconfiguration` (the resource and its Validate method), and
the flexible controller with pluggable node providers.  External collaborators
(the resource client, the validation package, the script cache, the iPXE
templates) are modelled at their interface boundary; definitions whose Go
source is not part of the embedded tree carry a `Modelled from the spec:`
comment.
-/

/-- Different identifier types (controller.go). -/
inductive IdentifierType where
  | xname
  | nid
  | mac
  | unknown
deriving DecidableEq

/-- NodeIdentifier represents different ways to identify a node (controller.go). -/
structure NodeIdentifier where
  value : String
  type : IdentifierType
deriving DecidableEq

/-- The node spec fields read by the controller: XName, Hostname, NID, BootMAC,
Groups.  Modelled from the spec: the node resource file itself is not embedded,
but its fields and their types are fixed by the accesses in controller.go. -/
structure NodeSpec where
  xname : String
  hostname : String
  nid : Int
  bootMAC : String
  groups : List String
deriving DecidableEq

/-- A node record returned by the inventory client. -/
structure Node where
  spec : NodeSpec
deriving DecidableEq

/-- BootConfigurationSpec (pkg/resources/bootconfiguration). -/
structure BootConfigurationSpec where
  hosts : List String := []
  macs : List String := []
  nids : List Int := []
  groups : List String := []
  profile : String := ""
  kernel : String := ""
  initrd : String := ""
  params : String := ""
  priority : Int := 0
deriving DecidableEq

/-- A BootConfiguration resource: its spec plus the resource metadata name
returned by GetName(). -/
structure BootConfiguration where
  name : String
  spec : BootConfigurationSpec
deriving DecidableEq

/-- Consume a maximal run of leading decimal digits. -/
def dropDigits : List Char → List Char
  | [] => []
  | c :: cs => if c.isDigit then dropDigits cs else c :: cs

/-- Expect at least one decimal digit, returning the remainder. -/
def expectDigits : List Char → Option (List Char)
  | [] => none
  | c :: cs => if c.isDigit then some (dropDigits cs) else none

/-- Expect one specific character, returning the remainder. -/
def expectChar (ch : Char) : List Char → Option (List Char)
  | [] => none
  | c :: cs => if c = ch then some cs else none

/-- Modelled from the spec: ValidateXName of the validation package (whose Go
source is not embedded) recognises the hardware-name format
x<cabinet>c<chassis>s<slot>b<blade>n<node> with numeric fields, as described by
the format comment in controller.go and the spec glossary. -/
def ValidateXName (s : String) : Bool :=
  match expectChar 'x' s.data >>= expectDigits >>= expectChar 'c' >>= expectDigits
      >>= expectChar 's' >>= expectDigits >>= expectChar 'b' >>= expectDigits
      >>= expectChar 'n' >>= expectDigits with
  | some [] => true
  | _ => false

/-- Hexadecimal digit test. -/
def isHexDigit (c : Char) : Bool :=
  c.isDigit || ('a' ≤ c && c ≤ 'f') || ('A' ≤ c && c ≤ 'F')

/-- Expect two hexadecimal digits, returning the remainder. -/
def expectHexPair : List Char → Option (List Char)
  | a :: b :: cs => if isHexDigit a && isHexDigit b then some cs else none
  | _ => none

/-- Modelled from the spec: ValidateMAC of the validation package (whose Go
source is not embedded) recognises MAC-address syntax: six colon-separated
pairs of hexadecimal digits. -/
def ValidateMAC (s : String) : Bool :=
  match expectHexPair s.data >>= expectChar ':' >>= expectHexPair >>= expectChar ':'
      >>= expectHexPair >>= expectChar ':' >>= expectHexPair >>= expectChar ':'
      >>= expectHexPair >>= expectChar ':' >>= expectHexPair with
  | some [] => true
  | _ => false

/-- Accumulate decimal digits; fails on the first non-digit character. -/
def digitsToNat (acc : Nat) : List Char → Option Nat
  | [] => some acc
  | c :: cs => if c.isDigit then digitsToNat (acc * 10 + (c.toNat - '0'.toNat)) cs else none

/-- strconv.Atoi: an optional sign followed by one or more decimal digits,
rejected when the value overflows a 64-bit int. -/
def atoi (s : String) : Option Int :=
  let signed : Bool × List Char :=
    match s.data with
    | '-' :: cs => (true, cs)
    | '+' :: cs => (false, cs)
    | cs => (false, cs)
  match signed.2 with
  | [] => none
  | _ :: _ =>
    match digitsToNat 0 signed.2 with
    | none => none
    | some n =>
      let v : Int := if signed.1 then -(n : Int) else (n : Int)
      if v < -(2 ^ 63 : Int) ∨ (2 ^ 63 - 1 : Int) < v then none else some v

/-- The Go condition `nid, err := strconv.Atoi(identifier); err == nil && nid >= 0`. -/
def isNonNegativeInt (s : String) : Bool :=
  match atoi s with
  | some n => decide (0 ≤ n)
  | none => false

/-- One-character ASCII case folding: equal outright, or equal up to the
32-point upper/lower case offset. -/
def charEqFold (a b : Char) : Bool :=
  a == b || (('A' ≤ a && a ≤ 'Z') && b.toNat == a.toNat + 32)
         || (('A' ≤ b && b ≤ 'Z') && a.toNat == b.toNat + 32)

/-- Case folding on character lists, position by position. -/
def listEqFold : List Char → List Char → Bool
  | [], [] => true
  | a :: as, b :: bs => charEqFold a b && listEqFold as bs
  | _, _ => false

/-- strings.EqualFold, modelled as ASCII-case-insensitive string comparison. -/
def eqFold (a b : String) : Bool :=
  listEqFold a.data b.data

instance {ε α : Type} [DecidableEq ε] [DecidableEq α] : DecidableEq (Except ε α) := fun a b =>
  match a, b with
  | .error e, .error f =>
    if h : e = f then isTrue (by rw [h]) else isFalse (by intro hh; cases hh; exact h rfl)
  | .ok x, .ok y =>
    if h : x = y then isTrue (by rw [h]) else isFalse (by intro hh; cases hh; exact h rfl)
  | .error _, .ok _ => isFalse (by intro h; cases h)
  | .ok _, .error _ => isFalse (by intro h; cases h)

/-- A cache entry (§4.6 of the spec): script, node identifier, configuration
name, expiry instant.  Modelled from the spec: the ScriptCache source is not
embedded. -/
structure CacheEntry where
  script : String
  nodeIdentifier : String
  configName : String
  expiresAt : Nat
deriving DecidableEq

/-- Modelled from the spec: the script cache is a TTL-bounded key-value store;
time is an explicit natural-number instant. -/
structure ScriptCache where
  ttl : Nat
  entries : List ((String × String) × CacheEntry)
deriving DecidableEq

/-- Modelled from the spec: get(key) returns the cached script unless the key
is absent or the entry has expired (an expired entry is a miss, §4.6). -/
def ScriptCache.get (c : ScriptCache) (now : Nat) (key : String × String) : Option String :=
  match c.entries.find? (fun e => decide (e.1 = key)) with
  | some e => if now < e.2.expiresAt then some e.2.script else none
  | none => none

/-- Modelled from the spec: set(key, script, nodeRef, configRef) stores an
entry expiring one TTL after now, overwriting any entry with the same key. -/
def ScriptCache.set (c : ScriptCache) (now : Nat) (key : String × String)
    (script nodeIdentifier configName : String) : ScriptCache :=
  ⟨c.ttl, (key, ⟨script, nodeIdentifier, configName, now + c.ttl⟩) ::
    c.entries.filter (fun e => decide (e.1 ≠ key))⟩

/-- Modelled from the spec: the cache key is a composite of the raw identifier
and the effective profile/configuration name (§4.6); modelled as the pair. -/
def generateCacheKey (identifier name : String) : String × String :=
  (identifier, name)

/-- The environment of external collaborators held by a BootScriptController:
the validation package (XName and MAC syntax), the resource client
(GetNodes, GetBootConfigurations), and the iPXE renderer buildIPXEScript
(modelled from the spec as an abstract fallible renderer: its Go source is not
embedded and the spec leaves its failure condition open, §4.5). -/
structure Env where
  validateXName : String → Bool
  validateMAC : String → Bool
  getNodes : Except String (List Node)
  getBootConfigurations : Except String (List BootConfiguration)
  build : BootConfiguration → Node → Except String String

/-- parseNodeIdentifier determines what type of identifier we are dealing with
(controller.go): XName syntax first, then non-negative integer, then MAC
syntax, otherwise unknown. -/
def parseNodeIdentifier (env : Env) (identifier : String) : NodeIdentifier :=
  if env.validateXName identifier then ⟨identifier, .xname⟩
  else if isNonNegativeInt identifier then ⟨identifier, .nid⟩
  else if env.validateMAC identifier then ⟨identifier, .mac⟩
  else ⟨identifier, .unknown⟩

/-- One step of the resolveNode scan: the switch on identifier.Type in
controller.go.  The unknown kind matches no node. -/
def identifierMatches (identifier : NodeIdentifier) (nodeItem : Node) : Bool :=
  match identifier.type with
  | .xname => nodeItem.spec.xname == identifier.value
  | .nid => (atoi identifier.value).getD 0 == nodeItem.spec.nid
  | .mac => eqFold nodeItem.spec.bootMAC identifier.value
  | .unknown => false

/-- resolveNode finds a node based on the identifier (controller.go): fetch all
nodes and linearly scan for the first match. -/
def resolveNode (env : Env) (identifier : NodeIdentifier) : Except String Node :=
  match env.getNodes with
  | .error e => .error ("getting nodes: " ++ e)
  | .ok nodes =>
    match nodes.find? (identifierMatches identifier) with
    | some n => .ok n
    | none => .error ("node not found for identifier " ++ identifier.value)

/-- matchesPattern checks if a pattern matches a value (controller.go):
the full wildcard or an exact match. -/
def matchesPattern (pattern value : String) : Bool :=
  pattern == "*" || pattern == value

/-- calculateConfigScore determines how well a configuration matches a node
(controller.go): +50 per matching host pattern, +100 per case-insensitively
matching MAC, +75 per matching NID, +25 per equal (config group, node group)
pair; a configuration with no targeting fields at all scores 1. -/
def calculateConfigScore (config : BootConfiguration) (nodeArg : Node) : Nat :=
  let hostScore := config.spec.hosts.foldl
    (fun acc host =>
      if matchesPattern host nodeArg.spec.xname || matchesPattern host nodeArg.spec.hostname
      then acc + 50 else acc) 0
  let macScore := config.spec.macs.foldl
    (fun acc mac => if eqFold mac nodeArg.spec.bootMAC then acc + 100 else acc) hostScore
  let nidScore := config.spec.nids.foldl
    (fun acc nid => if nid == nodeArg.spec.nid then acc + 75 else acc) macScore
  let groupScore := config.spec.groups.foldl
    (fun acc configGroup => nodeArg.spec.groups.foldl
      (fun acc2 nodeGroup => if configGroup == nodeGroup then acc2 + 25 else acc2) acc) nidScore
  if groupScore = 0 ∧ config.spec.hosts = [] ∧ config.spec.macs = [] ∧
      config.spec.nids = [] ∧ config.spec.groups = [] then 1 else groupScore

/-- A transient scored candidate (configCandidate in controller.go). -/
structure ConfigCandidate where
  config : BootConfiguration
  score : Nat

/-- Profile normalization used by findBootConfiguration: an empty profile is
treated as "default". -/
def effectiveProfile (p : String) : String :=
  if p = "" then "default" else p

/-- The candidate list built inside findBestCandidate (controller.go): keep a
configuration when its effective profile equals the effective target profile
and its score is positive. -/
def candidatesFor (configs : List BootConfiguration) (nodeArg : Node)
    (targetProfile : String) : List ConfigCandidate :=
  configs.filterMap fun configItem =>
    if effectiveProfile configItem.spec.profile = effectiveProfile targetProfile then
      let score := calculateConfigScore configItem nodeArg
      if 0 < score then some ⟨configItem, score⟩ else none
    else none

/-- The sort order of the Go comparator in findBestCandidate: a candidate comes
no later than another when it has a strictly larger score, or an equal score
and a priority at least as large.  sort.Slice only guarantees an ordering
consistent with its strict comparator (it is not stable), so the embedding
fixes one such ordering via insertion sort below. -/
def candLE (a b : ConfigCandidate) : Prop :=
  b.score < a.score ∨ (a.score = b.score ∧ b.config.spec.priority ≤ a.config.spec.priority)

instance candLE.instDecidableRel : DecidableRel candLE := fun a b => by
  unfold candLE
  infer_instance

instance candLE.instIsTotal : IsTotal ConfigCandidate candLE := ⟨by
  intro a b
  unfold candLE
  rcases Nat.lt_trichotomy a.score b.score with h | h | h
  · exact Or.inr (Or.inl h)
  · rcases le_total a.config.spec.priority b.config.spec.priority with hp | hp
    · exact Or.inr (Or.inr ⟨h.symm, hp⟩)
    · exact Or.inl (Or.inr ⟨h, hp⟩)
  · exact Or.inl (Or.inl h)⟩

instance candLE.instIsTrans : IsTrans ConfigCandidate candLE := ⟨by
  intro a b c hab hbc
  unfold candLE at hab hbc ⊢
  rcases hab with h1 | h1 <;> rcases hbc with h2 | h2
  · exact Or.inl (Nat.lt_trans h2 h1)
  · exact Or.inl (h2.1 ▸ h1)
  · exact Or.inl (lt_of_lt_of_eq h2 h1.1.symm)
  · exact Or.inr ⟨h1.1.trans h2.1, le_trans h2.2 h1.2⟩⟩

/-- findBestCandidate (controller.go): filter candidates for the target
profile, sort by score descending breaking ties by priority descending, and
take the first. -/
def findBestCandidate (configs : List BootConfiguration) (nodeArg : Node)
    (targetProfile : String) : Option BootConfiguration :=
  match (List.insertionSort candLE (candidatesFor configs nodeArg targetProfile)).head? with
  | some cand => some cand.config
  | none => none

/-- findBootConfiguration (controller.go): fetch all configurations; for a
specific non-default requested profile first try that profile, then fall back
to the "default" profile; fail when neither phase yields a candidate. -/
def findBootConfiguration (env : Env) (nodeArg : Node) (profile : String) :
    Except String BootConfiguration :=
  match env.getBootConfigurations with
  | .error e => .error ("getting boot configurations: " ++ e)
  | .ok configs =>
    match (if profile ≠ "" ∧ profile ≠ "default" then
            findBestCandidate configs nodeArg profile else none) with
    | some m => .ok m
    | none =>
      match findBestCandidate configs nodeArg "default" with
      | some m => .ok m
      | none => .error ("no matching configurations found for node " ++ nodeArg.spec.xname)

/-- Modelled from the spec: the minimal iPXE template (templates source not
embedded) applied at its single substitution point, the raw identifier. -/
def generateMinimalScript (identifier : String) : String :=
  "#!ipxe\necho Minimal boot script for " ++ identifier ++ "\nreboot\n"

/-- Modelled from the spec: the error iPXE template (templates source not
embedded) applied at its single substitution point, the error message. -/
def generateErrorScript (errorMsg : String) : String :=
  "#!ipxe\necho Boot error: " ++ errorMsg ++ "\nreboot\n"

/-- The outcome of one GenerateBootScript call: the script, the returned error
value, the cache after the call, and whether the call was answered from the
cache (the early return on a cache hit in controller.go). -/
structure GenResult where
  script : String
  err : Option String
  cache : ScriptCache
  fromCache : Bool
deriving DecidableEq

/-- GenerateBootScript (controller.go): cache lookup under
(identifier, profile); on a miss classify and resolve the identifier (failure
yields the error script), find the best configuration (failure yields the
minimal script), build the iPXE script (failure yields the error script), and
cache the built script under (identifier, configuration name). -/
def GenerateBootScript (env : Env) (cache : ScriptCache) (now : Nat)
    (identifier profile : String) : GenResult :=
  let cacheKey := generateCacheKey identifier profile
  match cache.get now cacheKey with
  | some cached => ⟨cached, none, cache, true⟩
  | none =>
    let nodeID := parseNodeIdentifier env identifier
    match resolveNode env nodeID with
    | .error e => ⟨generateErrorScript ("Node resolution failed: " ++ e), none, cache, false⟩
    | .ok nodeArg =>
      match findBootConfiguration env nodeArg profile with
      | .error _ => ⟨generateMinimalScript identifier, none, cache, false⟩
      | .ok config =>
        match env.build config nodeArg with
        | .error e =>
          ⟨generateErrorScript ("Script generation failed: " ++ e), none, cache, false⟩
        | .ok script =>
          let configName := config.name
          let cacheKey2 := generateCacheKey identifier configName
          ⟨script, none, cache.set now cacheKey2 script nodeArg.spec.xname configName, false⟩

/-- The FlexibleBootScriptController environment: the base controller
collaborators plus an optional external node provider, modelled by its
ResolveNodeByIdentifier operation. -/
structure FlexEnv where
  base : Env
  nodeProvider : Option (String → Except String Node)

/-- The outcome of one GenerateBootScriptWithFallback call; providerCalled
records whether ResolveNodeByIdentifier of the provider was invoked. -/
structure FallbackResult where
  script : String
  err : Option String
  cache : ScriptCache
  providerCalled : Bool
deriving DecidableEq

/-- GenerateBootScriptWithFallback (flexible controller): run the standard
GenerateBootScript; when it returns a non-nil error, consult the external
provider if configured and retry with the XName of the resolved node, degrading to
the minimal script when anything fails. -/
def GenerateBootScriptWithFallback (fenv : FlexEnv) (cache : ScriptCache) (now : Nat)
    (identifier : String) : FallbackResult :=
  let r := GenerateBootScript fenv.base cache now identifier ""
  match r.err with
  | none => ⟨r.script, none, r.cache, false⟩
  | some _ =>
    match fenv.nodeProvider with
    | none => ⟨generateMinimalScript identifier, none, r.cache, false⟩
    | some resolveByIdentifier =>
      match resolveByIdentifier identifier with
      | .error _ => ⟨generateMinimalScript identifier, none, r.cache, true⟩
      | .ok nodeArg =>
        let r2 := GenerateBootScript fenv.base r.cache now nodeArg.spec.xname ""
        match r2.err with
        | some _ => ⟨generateMinimalScript identifier, none, r2.cache, true⟩
        | none => ⟨r2.script, none, r2.cache, true⟩

/-- Validate of the BootConfiguration resource
(pkg/resources/bootconfiguration), parameterized by the validation-package
predicates it calls (whose Go source is not embedded): returns the first
validation error, or none when the specification is accepted. -/
def Validate (vXNameOrDefault vMAC vURLOrPath vURLOrPathOptional : String → Bool)
    (r : BootConfiguration) : Option String :=
  if r.spec.kernel = "" then some "kernel field is required"
  else
    match r.spec.hosts.find? (fun host => !vXNameOrDefault host) with
    | some host => some ("invalid host XName format: " ++ host)
    | none =>
      match r.spec.macs.find? (fun mac => !vMAC mac) with
      | some mac => some ("invalid MAC address format: " ++ mac)
      | none =>
        if vURLOrPath r.spec.kernel = false then
          some ("invalid kernel URL or path: " ++ r.spec.kernel)
        else if r.spec.initrd ≠ "" ∧ vURLOrPathOptional r.spec.initrd = false then
          some ("invalid initrd URL or path: " ++ r.spec.initrd)
        else if r.spec.priority < 0 ∨ 100 < r.spec.priority then
          some "priority must be between 0 and 100"
        else if r.spec.hosts = [] ∧ r.spec.macs = [] ∧ r.spec.nids = [] ∧ r.spec.groups = [] then
          some "at least one targeting method (hosts, macs, nids, or groups) must be specified"
        else none

/-! ## Helper lemmas -/

/-- The classifier always carries the original raw value. -/
theorem parseNodeIdentifier_value (env : Env) (s : String) :
    (parseNodeIdentifier env s).value = s := by
  unfold parseNodeIdentifier
  split_ifs <;> rfl

/-- Every path of GenerateBootScript returns a nil error value. -/
theorem generateBootScript_err_none (env : Env) (cache : ScriptCache) (now : Nat)
    (identifier profile : String) :
    (GenerateBootScript env cache now identifier profile).err = none := by
  simp only [GenerateBootScript]
  repeat' split
  all_goals rfl

/-- An identifier of unknown kind matches no node in the scan. -/
theorem identifierMatches_unknown {id : NodeIdentifier} (h : id.type = .unknown)
    (nodeItem : Node) : identifierMatches id nodeItem = false := by
  unfold identifierMatches
  rw [h]

/-- resolveNode on an unknown-kind identifier fails with the not-found error
whenever the inventory query succeeds, whatever the inventory contents. -/
theorem resolveNode_unknown_of_ok {env : Env} {id : NodeIdentifier} {nodes : List Node}
    (h : id.type = .unknown) (hok : env.getNodes = .ok nodes) :
    resolveNode env id = .error ("node not found for identifier " ++ id.value) := by
  have hfind : nodes.find? (identifierMatches id) = none :=
    List.find?_eq_none.mpr (fun nodeItem _ => by
      rw [identifierMatches_unknown h nodeItem]; exact Bool.false_ne_true)
  simp only [resolveNode, hok, hfind]

/-- resolveNode on an unknown-kind identifier always fails. -/
theorem resolveNode_unknown {env : Env} {id : NodeIdentifier} (h : id.type = .unknown) :
    ∃ msg, resolveNode env id = .error msg := by
  cases hgn : env.getNodes with
  | error e => exact ⟨"getting nodes: " ++ e, by unfold resolveNode; rw [hgn]⟩
  | ok nodes => exact ⟨_, resolveNode_unknown_of_ok h hgn⟩

/-- A conditional-increment fold counts matches, weighted. -/
theorem foldl_score {α : Type} (w : Nat) (p : α → Bool) (l : List α) (init : Nat) :
    l.foldl (fun acc x => if p x then acc + w else acc) init = init + w * l.countP p := by
  induction l generalizing init with
  | nil => simp
  | cons a l ih =>
    cases hpa : p a
    · simp [List.foldl_cons, List.countP_cons, hpa, ih]
    · simp [List.foldl_cons, List.countP_cons, hpa, ih]
      ring

/-- The nested group fold adds 25 per equal (config group, node group) pair. -/
theorem foldl_group_score (groups nodeGroups : List String) (init : Nat) :
    groups.foldl (fun acc configGroup => nodeGroups.foldl
        (fun acc2 nodeGroup => if configGroup == nodeGroup then acc2 + 25 else acc2) acc)
      init =
    init + 25 * (groups.map (fun configGroup =>
      nodeGroups.countP (fun nodeGroup => configGroup == nodeGroup))).sum := by
  induction groups generalizing init with
  | nil => simp
  | cons g gs ih =>
    simp only [List.foldl_cons, List.map_cons, List.sum_cons]
    rw [foldl_score 25 (fun nodeGroup => g == nodeGroup) nodeGroups init, ih]
    ring

theorem candLE_refl (a : ConfigCandidate) : candLE a a :=
  Or.inr ⟨rfl, le_refl _⟩

/-- Membership in the candidate list characterised. -/
theorem mem_candidatesFor {configs : List BootConfiguration} {nodeArg : Node}
    {targetProfile : String} {cand : ConfigCandidate}
    (h : cand ∈ candidatesFor configs nodeArg targetProfile) :
    cand.config ∈ configs ∧
    effectiveProfile cand.config.spec.profile = effectiveProfile targetProfile ∧
    cand.score = calculateConfigScore cand.config nodeArg ∧ 0 < cand.score := by
  unfold candidatesFor at h
  obtain ⟨configItem, hmem, hf⟩ := List.mem_filterMap.mp h
  by_cases hp : effectiveProfile configItem.spec.profile = effectiveProfile targetProfile
  · simp only [hp, if_true] at hf
    by_cases hs : 0 < calculateConfigScore configItem nodeArg
    · simp only [hs, if_pos, Option.some.injEq] at hf
      subst hf
      exact ⟨hmem, hp, rfl, hs⟩
    · simp [hs] at hf
  · simp [hp] at hf

/-- The reverse direction: every configuration passing the profile filter with
a positive score appears in the candidate list. -/
theorem candidatesFor_mem_of {configs : List BootConfiguration} {nodeArg : Node}
    {targetProfile : String} {configItem : BootConfiguration}
    (hmem : configItem ∈ configs)
    (hp : effectiveProfile configItem.spec.profile = effectiveProfile targetProfile)
    (hs : 0 < calculateConfigScore configItem nodeArg) :
    (⟨configItem, calculateConfigScore configItem nodeArg⟩ : ConfigCandidate) ∈
      candidatesFor configs nodeArg targetProfile := by
  unfold candidatesFor
  refine List.mem_filterMap.mpr ⟨configItem, hmem, ?_⟩
  simp only [hp, if_true, hs, if_pos]

/-- A successful findBestCandidate returns a maximal candidate with respect to
the score-then-priority order. -/
theorem findBestCandidate_eq_some {configs : List BootConfiguration} {nodeArg : Node}
    {targetProfile : String} {c : BootConfiguration}
    (h : findBestCandidate configs nodeArg targetProfile = some c) :
    ∃ cand, cand ∈ candidatesFor configs nodeArg targetProfile ∧ cand.config = c ∧
      ∀ cand2 ∈ candidatesFor configs nodeArg targetProfile, candLE cand cand2 := by
  unfold findBestCandidate at h
  cases hl : List.insertionSort candLE (candidatesFor configs nodeArg targetProfile) with
  | nil => rw [hl] at h; simp at h
  | cons a rest =>
    rw [hl] at h
    simp only [List.head?_cons, Option.some.injEq] at h
    have hperm := List.perm_insertionSort candLE (candidatesFor configs nodeArg targetProfile)
    rw [hl] at hperm
    have hsorted := List.sorted_insertionSort candLE (candidatesFor configs nodeArg targetProfile)
    rw [hl] at hsorted
    refine ⟨a, hperm.mem_iff.mp (List.mem_cons_self a rest), h, ?_⟩
    intro cand2 h2
    rcases List.mem_cons.mp (hperm.mem_iff.mpr h2) with heq | hmem
    · rw [heq]; exact candLE_refl a
    · exact List.rel_of_sorted_cons hsorted cand2 hmem

/-- findBestCandidate fails exactly when the candidate list is empty. -/
theorem findBestCandidate_eq_none {configs : List BootConfiguration} {nodeArg : Node}
    {targetProfile : String} :
    findBestCandidate configs nodeArg targetProfile = none ↔
      candidatesFor configs nodeArg targetProfile = [] := by
  unfold findBestCandidate
  constructor
  · intro h
    cases hl : List.insertionSort candLE (candidatesFor configs nodeArg targetProfile) with
    | nil =>
      have hperm := List.perm_insertionSort candLE (candidatesFor configs nodeArg targetProfile)
      rw [hl] at hperm
      exact hperm.symm.eq_nil
    | cons a rest => rw [hl] at h; simp at h
  · intro h
    rw [h]
    rfl

/-- The selected configuration always carries the effective target profile. -/
theorem findBestCandidate_profile {configs : List BootConfiguration} {nodeArg : Node}
    {targetProfile : String} {c : BootConfiguration}
    (h : findBestCandidate configs nodeArg targetProfile = some c) :
    effectiveProfile c.spec.profile = effectiveProfile targetProfile := by
  obtain ⟨cand, hmem, hcfg, _⟩ := findBestCandidate_eq_some h
  rw [← hcfg]
  exact (mem_candidatesFor hmem).2.1

/-- The candidate list only depends on the effective target profile. -/
theorem candidatesFor_congr (configs : List BootConfiguration) (nodeArg : Node)
    {t1 t2 : String} (h : effectiveProfile t1 = effectiveProfile t2) :
    candidatesFor configs nodeArg t1 = candidatesFor configs nodeArg t2 := by
  simp only [candidatesFor, h]

/-- When the profile is empty or "default" its effective profile is "default". -/
theorem effectiveProfile_default {profile : String}
    (h : ¬(profile ≠ "" ∧ profile ≠ "default")) : effectiveProfile profile = "default" := by
  rcases not_and_or.mp h with h1 | h1
  · rw [effectiveProfile, if_pos (not_not.mp h1)]
  · rw [not_not.mp h1]
    rfl

/-- Case analysis on a successful findBootConfiguration call: the result comes
from the requested-profile phase, or from the default phase with the requested
phase skipped or empty-handed. -/
theorem findBootConfiguration_ok_cases {env : Env} {nodeArg : Node} {profile : String}
    {c : BootConfiguration} {configs : List BootConfiguration}
    (hc : env.getBootConfigurations = .ok configs)
    (h : findBootConfiguration env nodeArg profile = .ok c) :
    (profile ≠ "" ∧ profile ≠ "default" ∧ findBestCandidate configs nodeArg profile = some c) ∨
    (findBestCandidate configs nodeArg "default" = some c ∧
      (¬(profile ≠ "" ∧ profile ≠ "default") ∨
        findBestCandidate configs nodeArg profile = none)) := by
  simp only [findBootConfiguration, hc] at h
  by_cases hp : profile ≠ "" ∧ profile ≠ "default"
  · simp only [if_pos hp] at h
    cases hfb : findBestCandidate configs nodeArg profile with
    | some m =>
      simp only [hfb, Except.ok.injEq] at h
      exact Or.inl ⟨hp.1, hp.2, by rw [h]⟩
    | none =>
      simp only [hfb] at h
      cases hfd : findBestCandidate configs nodeArg "default" with
      | some m =>
        simp only [hfd, Except.ok.injEq] at h
        exact Or.inr ⟨by rw [h], Or.inr rfl⟩
      | none => simp [hfd] at h
  · simp only [if_neg hp] at h
    cases hfd : findBestCandidate configs nodeArg "default" with
    | some m =>
      simp only [hfd, Except.ok.injEq] at h
      exact Or.inr ⟨by rw [h], Or.inl hp⟩
    | none => simp [hfd] at h

/-- findBootConfiguration fails exactly when neither phase has a candidate. -/
theorem findBootConfiguration_error_iff {env : Env} {nodeArg : Node} {profile : String}
    {configs : List BootConfiguration}
    (hc : env.getBootConfigurations = .ok configs) :
    (∃ e, findBootConfiguration env nodeArg profile = .error e) ↔
      (candidatesFor configs nodeArg profile = [] ∧
        candidatesFor configs nodeArg "default" = []) := by
  simp only [findBootConfiguration, hc]
  by_cases hp : profile ≠ "" ∧ profile ≠ "default"
  · simp only [if_pos hp]
    cases hfb : findBestCandidate configs nodeArg profile with
    | some m =>
      simp only []
      constructor
      · rintro ⟨e, he⟩; cases he
      · rintro ⟨h1, _⟩
        exact absurd (findBestCandidate_eq_none.mpr h1) (by rw [hfb]; simp)
    | none =>
      cases hfd : findBestCandidate configs nodeArg "default" with
      | some m =>
        simp only []
        constructor
        · rintro ⟨e, he⟩; cases he
        · rintro ⟨_, h2⟩
          exact absurd (findBestCandidate_eq_none.mpr h2) (by rw [hfd]; simp)
      | none =>
        simp only []
        constructor
        · intro _
          exact ⟨findBestCandidate_eq_none.mp hfb, findBestCandidate_eq_none.mp hfd⟩
        · intro _
          exact ⟨_, rfl⟩
  · simp only [if_neg hp]
    have hcongr : candidatesFor configs nodeArg profile = candidatesFor configs nodeArg "default" :=
      candidatesFor_congr configs nodeArg (by rw [effectiveProfile_default hp]; rfl)
    cases hfd : findBestCandidate configs nodeArg "default" with
    | some m =>
      simp only []
      constructor
      · rintro ⟨e, he⟩; cases he
      · rintro ⟨_, h2⟩
        exact absurd (findBestCandidate_eq_none.mpr h2) (by rw [hfd]; simp)
    | none =>
      simp only []
      constructor
      · intro _
        exact ⟨by rw [hcongr]; exact findBestCandidate_eq_none.mp hfd,
          findBestCandidate_eq_none.mp hfd⟩
      · intro _
        exact ⟨_, rfl⟩

/-! ## Concrete fixtures used by witnesses and counterexamples -/

/-- A base environment: the spec-modelled validators, an empty inventory, no
configurations, and a renderer that always succeeds. -/
def specEnvBase : Env :=
  { validateXName := ValidateXName
    validateMAC := ValidateMAC
    getNodes := .ok []
    getBootConfigurations := .ok []
    build := fun _ _ => .ok "SCRIPT" }

/-- An empty cache with the reference 5-minute (300-second) TTL. -/
def emptyCache : ScriptCache := ⟨300, []⟩

/-- The end-to-end example node: XName x1000c0s0b0n0, boot MAC
aa:bb:cc:dd:ee:ff, NID 5. -/
def nodeC4 : Node := ⟨⟨"x1000c0s0b0n0", "nid005", 5, "aa:bb:cc:dd:ee:ff", []⟩⟩

/-- Configuration targeting the MAC of nodeC4 with priority 10. -/
def cfgC4a : BootConfiguration :=
  ⟨"C1", { macs := ["aa:bb:cc:dd:ee:ff"], priority := 10, kernel := "http://k" }⟩

/-- Configuration targeting NID 5 with priority 90. -/
def cfgC4b : BootConfiguration :=
  ⟨"C2", { nids := [5], priority := 90, kernel := "http://k" }⟩

/-- Environment with nodeC4 and the two competing configurations. -/
def envC4 : Env :=
  { specEnvBase with
    getNodes := .ok [nodeC4]
    getBootConfigurations := .ok [cfgC4a, cfgC4b] }

/-- A default-profile catch-all configuration with no targeting fields. -/
def catchAllConfig : BootConfiguration :=
  ⟨"catch-all", { kernel := "http://k" }⟩

/-- Environment with nodeC4 and only the catch-all configuration. -/
def envC5 : Env :=
  { specEnvBase with
    getNodes := .ok [nodeC4]
    getBootConfigurations := .ok [catchAllConfig] }

/-- A configuration listing the same MAC twice in different cases. -/
def cfgDupMAC : BootConfiguration :=
  ⟨"dup", { macs := ["aa:bb:cc:dd:ee:ff", "AA:BB:CC:DD:EE:FF"], kernel := "http://k" }⟩

/-- A node whose boot MAC matches both entries of cfgDupMAC. -/
def nodeDup : Node := ⟨⟨"x2000c0s0b0n0", "h2", 7, "aa:bb:cc:dd:ee:ff", []⟩⟩

/-- A configuration matching node125 on one MAC and one group. -/
def cfg125 : BootConfiguration :=
  ⟨"mg", { macs := ["AA:BB:CC:DD:EE:FF"], groups := ["compute"], kernel := "http://k" }⟩

/-- A node matching cfg125 case-insensitively on MAC and on one group. -/
def node125 : Node := ⟨⟨"x3000c0s0b0n0", "h3", 9, "aa:bb:cc:dd:ee:ff", ["compute"]⟩⟩

/-- A flexible-controller environment whose primary inventory is empty but
whose external provider resolves every identifier. -/
def fenvC7 : FlexEnv := ⟨specEnvBase, some (fun _ => .ok nodeC4)⟩

/-! ## Claims -/

/-- Claim C1: for every identifier string and profile string (and any
collaborator behaviour, cache state, and time instant), GenerateBootScript
returns a script string with a nil error: every path, cache hit,
node-resolution failure, configuration-match failure, script-construction
failure, and success, yields script text and never propagates an error to the
caller. -/
theorem C1_never_fails (env : Env) (cache : ScriptCache) (now : Nat)
    (identifier profile : String) :
    (GenerateBootScript env cache now identifier profile).err = none :=
  generateBootScript_err_none env cache now identifier profile

/-- Claim C2, counterexample: identifier 9999 with no matching node anywhere
yields the error script, not the minimal script substituting the raw
identifier, so NodeNotFound is not recovered into the minimal script. -/
theorem C2_counterexample :
    (GenerateBootScript specEnvBase emptyCache 0 "9999" "").script ≠
      generateMinimalScript "9999" := by decide

/-- Claim C2 (amended): on a cache miss, a node-resolution failure
(NodeNotFound or an inventory-query failure) is recovered locally into the
error script carrying the failure message, while a configuration-match
failure (NoMatchingConfiguration) is recovered into the minimal script
substituting the raw identifier; neither surfaces a hard error.  In
particular identifier 9999 with no matching node yields, with a nil error,
the error script whose text contains the literal identifier 9999. -/
theorem C2_local_recovery :
    (∀ (env : Env) (cache : ScriptCache) (now : Nat) (identifier profile msg : String),
        cache.get now (generateCacheKey identifier profile) = none →
        resolveNode env (parseNodeIdentifier env identifier) = .error msg →
        GenerateBootScript env cache now identifier profile =
          ⟨generateErrorScript ("Node resolution failed: " ++ msg), none, cache, false⟩) ∧
    (∀ (env : Env) (cache : ScriptCache) (now : Nat) (identifier profile e : String)
        (nodeArg : Node),
        cache.get now (generateCacheKey identifier profile) = none →
        resolveNode env (parseNodeIdentifier env identifier) = .ok nodeArg →
        findBootConfiguration env nodeArg profile = .error e →
        GenerateBootScript env cache now identifier profile =
          ⟨generateMinimalScript identifier, none, cache, false⟩) ∧
    (GenerateBootScript specEnvBase emptyCache 0 "9999" "").err = none ∧
    (∃ a b, (GenerateBootScript specEnvBase emptyCache 0 "9999" "").script =
      a ++ "9999" ++ b) := by
  refine ⟨?_, ?_, by decide, ?_⟩
  · intro env cache now identifier profile msg hmiss hres
    simp only [GenerateBootScript, hmiss, hres]
  · intro env cache now identifier profile e nodeArg hmiss hres hcfg
    simp only [GenerateBootScript, hmiss, hres, hcfg]
  · exact ⟨"#!ipxe\necho Boot error: Node resolution failed: node not found for identifier ",
      "\nreboot\n", by decide⟩

/-- Witness for C2 at a concrete input: the empty-inventory environment and
identifier 9999. -/
theorem C2_local_recovery_witness :
    GenerateBootScript specEnvBase emptyCache 0 "9999" "" =
      ⟨generateErrorScript ("Node resolution failed: " ++
        "node not found for identifier 9999"), none, emptyCache, false⟩ :=
  C2_local_recovery.1 specEnvBase emptyCache 0 "9999" ""
    "node not found for identifier 9999" rfl (by decide)

/-- The scoring formula exactly as claim C3 words it, stated for comparison
with calculateConfigScore: a flat +100 when any configured MAC matches, +75
per matching NID, +50 per matching host pattern, +25 per configured group the
node is a member of, and exactly 1 for a configuration with no targeting
fields. -/
def specScoreClaimed (config : BootConfiguration) (nodeArg : Node) : Nat :=
  let base :=
    50 * config.spec.hosts.countP (fun host =>
          matchesPattern host nodeArg.spec.xname || matchesPattern host nodeArg.spec.hostname)
    + (if config.spec.macs.any (fun mac => eqFold mac nodeArg.spec.bootMAC) then 100 else 0)
    + 75 * config.spec.nids.countP (fun nid => nid == nodeArg.spec.nid)
    + 25 * config.spec.groups.countP (fun configGroup =>
        nodeArg.spec.groups.contains configGroup)
  if config.spec.hosts = [] ∧ config.spec.macs = [] ∧ config.spec.nids = [] ∧
      config.spec.groups = [] then 1 else base

/-- Claim C3, counterexample: a configuration listing the same MAC twice (in
two cases) scores 200 against a node with that boot MAC, not the flat 100 the
claim ascribes to the MAC dimension. -/
theorem C3_counterexample :
    specScoreClaimed cfgDupMAC nodeDup = 100 ∧
    calculateConfigScore cfgDupMAC nodeDup = 200 ∧
    calculateConfigScore cfgDupMAC nodeDup ≠ specScoreClaimed cfgDupMAC nodeDup := by
  refine ⟨by decide, by decide, by decide⟩

/-- Claim C3 (amended): score(C, N) accumulates +100 per configured MAC
case-insensitively equal to the boot MAC of N, +75 per configured NID equal
to the NID of N, +50 per configured host pattern matching the hardware name
or hostname of N by exact match or the full wildcard, and +25 per equal pair
of one configured group and one node group entry; a configuration whose four
targeting lists are all empty scores exactly 1, never higher; contributions
accumulate (one matching MAC plus one matching group scores 125). -/
theorem C3_score_characterization :
    (∀ (config : BootConfiguration) (nodeArg : Node),
        calculateConfigScore config nodeArg =
          if config.spec.hosts = [] ∧ config.spec.macs = [] ∧ config.spec.nids = [] ∧
              config.spec.groups = [] then 1
          else
            50 * config.spec.hosts.countP (fun host =>
                  matchesPattern host nodeArg.spec.xname ||
                    matchesPattern host nodeArg.spec.hostname)
            + 100 * config.spec.macs.countP (fun mac => eqFold mac nodeArg.spec.bootMAC)
            + 75 * config.spec.nids.countP (fun nid => nid == nodeArg.spec.nid)
            + 25 * (config.spec.groups.map (fun configGroup =>
                nodeArg.spec.groups.countP
                  (fun nodeGroup => configGroup == nodeGroup))).sum) ∧
    calculateConfigScore cfg125 node125 = 125 ∧
    calculateConfigScore catchAllConfig node125 = 1 := by
  refine ⟨?_, by decide, by decide⟩
  intro config nodeArg
  simp only [calculateConfigScore]
  rw [foldl_score, foldl_score, foldl_score, foldl_group_score]
  by_cases hE : config.spec.hosts = [] ∧ config.spec.macs = [] ∧ config.spec.nids = [] ∧
      config.spec.groups = []
  · obtain ⟨h1, h2, h3, h4⟩ := hE
    simp [h1, h2, h3, h4]
  · rw [if_neg (fun hand => hE hand.2), if_neg hE]
    omega

/-- Claim C4: among profile-eligible candidates with positive score,
findBootConfiguration selects a candidate of maximal score, breaking equal
scores by higher configured priority, and fails only when no candidate scores
above zero in any phase; concretely, for the node with boot MAC
aa:bb:cc:dd:ee:ff and NID 5, the configuration targeting that MAC with
priority 10 beats the one targeting NID 5 with priority 90. -/
theorem C4_best_match_selection :
    (∀ (env : Env) (nodeArg : Node) (profile : String) (configs : List BootConfiguration)
        (c : BootConfiguration),
        env.getBootConfigurations = .ok configs →
        findBootConfiguration env nodeArg profile = .ok c →
        ∃ target, (target = profile ∨ target = "default") ∧
          ∃ cand, cand ∈ candidatesFor configs nodeArg target ∧ cand.config = c ∧
            ∀ cand2 ∈ candidatesFor configs nodeArg target,
              cand2.score ≤ cand.score ∧
                (cand2.score = cand.score →
                  cand2.config.spec.priority ≤ cand.config.spec.priority)) ∧
    (∀ (env : Env) (nodeArg : Node) (profile : String) (configs : List BootConfiguration),
        env.getBootConfigurations = .ok configs →
        ((∃ e, findBootConfiguration env nodeArg profile = .error e) ↔
          (candidatesFor configs nodeArg profile = [] ∧
            candidatesFor configs nodeArg "default" = []))) ∧
    findBootConfiguration envC4 nodeC4 "default" = .ok cfgC4a := by
  refine ⟨?_, ?_, by decide⟩
  · intro env nodeArg profile configs c hc h
    have hconv : ∀ (target : String), findBestCandidate configs nodeArg target = some c →
        ∃ cand, cand ∈ candidatesFor configs nodeArg target ∧ cand.config = c ∧
          ∀ cand2 ∈ candidatesFor configs nodeArg target,
            cand2.score ≤ cand.score ∧
              (cand2.score = cand.score →
                cand2.config.spec.priority ≤ cand.config.spec.priority) := by
      intro target hfb
      obtain ⟨cand, hmem, hcfg, hmax⟩ := findBestCandidate_eq_some hfb
      refine ⟨cand, hmem, hcfg, ?_⟩
      intro cand2 h2
      rcases hmax cand2 h2 with hlt | ⟨heq, hle⟩
      · exact ⟨Nat.le_of_lt hlt, fun he => absurd (he ▸ hlt) (lt_irrefl _)⟩
      · exact ⟨Nat.le_of_eq heq.symm, fun _ => hle⟩
    rcases findBootConfiguration_ok_cases hc h with ⟨_, _, hfb⟩ | ⟨hfd, _⟩
    · exact ⟨profile, Or.inl rfl, hconv profile hfb⟩
    · exact ⟨"default", Or.inr rfl, hconv "default" hfd⟩
  · intro env nodeArg profile configs hc
    exact findBootConfiguration_error_iff hc

/-- Witness for C4 at a concrete input: the failure criterion instantiated at
the two-configuration environment. -/
theorem C4_best_match_selection_witness :
    (∃ e, findBootConfiguration envC4 nodeC4 "default" = Except.error e) ↔
      (candidatesFor [cfgC4a, cfgC4b] nodeC4 "default" = [] ∧
        candidatesFor [cfgC4a, cfgC4b] nodeC4 "default" = []) :=
  C4_best_match_selection.2.1 envC4 nodeC4 "default" [cfgC4a, cfgC4b] rfl

/-- Claim C5: a selected configuration always carries the effective requested
profile, or, only when a specific non-default profile was requested and no
candidate for it scored above zero, the "default" profile; fallback flows
only from the requested profile to "default" (a request for "default" only
ever selects effective-"default" configurations); a default catch-all is
returned for the non-existent profile burn-in. -/
theorem C5_profile_fallback :
    (∀ (env : Env) (nodeArg : Node) (profile : String) (configs : List BootConfiguration)
        (c : BootConfiguration),
        env.getBootConfigurations = .ok configs →
        findBootConfiguration env nodeArg profile = .ok c →
        effectiveProfile c.spec.profile = effectiveProfile profile ∨
          (profile ≠ "" ∧ profile ≠ "default" ∧
            effectiveProfile c.spec.profile = "default" ∧
            candidatesFor configs nodeArg profile = [])) ∧
    (∀ (env : Env) (nodeArg : Node) (configs : List BootConfiguration)
        (c : BootConfiguration),
        env.getBootConfigurations = .ok configs →
        findBootConfiguration env nodeArg "default" = .ok c →
        effectiveProfile c.spec.profile = "default") ∧
    findBootConfiguration envC5 nodeC4 "burn-in" = .ok catchAllConfig := by
  refine ⟨?_, ?_, by decide⟩
  · intro env nodeArg profile configs c hc h
    rcases findBootConfiguration_ok_cases hc h with ⟨_, _, hfb⟩ | ⟨hfd, hor⟩
    · exact Or.inl (findBestCandidate_profile hfb)
    · have hcd : effectiveProfile c.spec.profile = "default" := by
        rw [findBestCandidate_profile hfd]
        rfl
      rcases hor with hskip | hempty
      · exact Or.inl (by rw [hcd, effectiveProfile_default hskip])
      · by_cases hp : profile ≠ "" ∧ profile ≠ "default"
        · exact Or.inr ⟨hp.1, hp.2, hcd, findBestCandidate_eq_none.mp hempty⟩
        · exact Or.inl (by rw [hcd, effectiveProfile_default hp])
  · intro env nodeArg configs c hc h
    rcases findBootConfiguration_ok_cases hc h with ⟨_, h2, _⟩ | ⟨hfd, _⟩
    · exact absurd rfl h2
    · rw [findBestCandidate_profile hfd]
      rfl

/-- Witness for C5 at a concrete input: the burn-in request against the
catch-all environment. -/
theorem C5_profile_fallback_witness :
    effectiveProfile catchAllConfig.spec.profile = effectiveProfile "burn-in" ∨
      ("burn-in" ≠ "" ∧ "burn-in" ≠ "default" ∧
        effectiveProfile catchAllConfig.spec.profile = "default" ∧
        candidatesFor [catchAllConfig] nodeC4 "burn-in" = []) :=
  C5_profile_fallback.1 envC5 nodeC4 "burn-in" [catchAllConfig] catchAllConfig rfl (by decide)

/-- Claim C6 (code bug): GenerateBootScript looks the cache up under the key
(identifier, profile) but stores the generated script under
(identifier, configuration name).  At the concrete input below both calls are
answered by full resolution (fromCache is false both times): the second
identical call within the TTL window misses the cache because the stored key
names the configuration C1 while the lookup key names the empty profile.  The
scripts of the two calls are still byte-identical. -/
theorem C6_cache_key_mismatch :
    (GenerateBootScript envC4 emptyCache 0 "x1000c0s0b0n0" "").fromCache = false ∧
    (GenerateBootScript envC4
        (GenerateBootScript envC4 emptyCache 0 "x1000c0s0b0n0" "").cache
        0 "x1000c0s0b0n0" "").fromCache = false ∧
    (GenerateBootScript envC4
        (GenerateBootScript envC4 emptyCache 0 "x1000c0s0b0n0" "").cache
        0 "x1000c0s0b0n0" "").script =
      (GenerateBootScript envC4 emptyCache 0 "x1000c0s0b0n0" "").script ∧
    (GenerateBootScript envC4 emptyCache 0 "x1000c0s0b0n0" "").cache.get 0
      (generateCacheKey "x1000c0s0b0n0" "") = none ∧
    (GenerateBootScript envC4 emptyCache 0 "x1000c0s0b0n0" "").cache.get 0
      (generateCacheKey "x1000c0s0b0n0" "C1") = some "SCRIPT" := by
  refine ⟨by decide, by decide, by decide, by decide, by decide⟩

/-- Claim C7 (code bug): GenerateBootScript never returns a non-nil error, so
the provider-fallback branch of GenerateBootScriptWithFallback is
unreachable: for every environment the provider is never consulted and the
result is exactly the standard result.  At the concrete input, an identifier
that primary resolution cannot resolve, with a provider configured that
resolves every identifier, the caller receives the error script and the
provider is never called. -/
theorem C7_provider_fallback_dead :
    (∀ (fenv : FlexEnv) (cache : ScriptCache) (now : Nat) (identifier : String),
        GenerateBootScriptWithFallback fenv cache now identifier =
          ⟨(GenerateBootScript fenv.base cache now identifier "").script, none,
            (GenerateBootScript fenv.base cache now identifier "").cache, false⟩) ∧
    (GenerateBootScriptWithFallback fenvC7 emptyCache 0 "9999").providerCalled = false ∧
    (GenerateBootScriptWithFallback fenvC7 emptyCache 0 "9999").script =
      generateErrorScript "Node resolution failed: node not found for identifier 9999" := by
  refine ⟨?_, by decide, by decide⟩
  intro fenv cache now identifier
  simp only [GenerateBootScriptWithFallback, generateBootScript_err_none]

/-- Claim C8: parseNodeIdentifier is total and classifies in this order:
hardware-name syntax first, then non-negative integer, then MAC syntax,
otherwise Unknown; the returned identifier always carries the original raw
value; and the integer condition holds exactly when strconv.Atoi succeeds
with a non-negative value. -/
theorem C8_classifier_total_ordered :
    ∀ (env : Env) (s : String),
      (parseNodeIdentifier env s).value = s ∧
      (env.validateXName s = true → parseNodeIdentifier env s = ⟨s, .xname⟩) ∧
      (env.validateXName s = false → isNonNegativeInt s = true →
        parseNodeIdentifier env s = ⟨s, .nid⟩) ∧
      (env.validateXName s = false → isNonNegativeInt s = false →
        env.validateMAC s = true → parseNodeIdentifier env s = ⟨s, .mac⟩) ∧
      (env.validateXName s = false → isNonNegativeInt s = false →
        env.validateMAC s = false → parseNodeIdentifier env s = ⟨s, .unknown⟩) ∧
      (isNonNegativeInt s = true ↔ ∃ n, atoi s = some n ∧ 0 ≤ n) := by
  intro env s
  refine ⟨parseNodeIdentifier_value env s, ?_, ?_, ?_, ?_, ?_⟩
  · intro h1
    simp [parseNodeIdentifier, h1]
  · intro h1 h2
    simp [parseNodeIdentifier, h1, h2]
  · intro h1 h2 h3
    simp [parseNodeIdentifier, h1, h2, h3]
  · intro h1 h2 h3
    simp [parseNodeIdentifier, h1, h2, h3]
  · unfold isNonNegativeInt
    cases ha : atoi s with
    | none => simp [ha]
    | some n => simp [ha]

/-- Witness for C8 at a concrete input: a MAC-syntax string with the
spec-modelled validators. -/
theorem C8_classifier_total_ordered_witness :
    parseNodeIdentifier specEnvBase "aa:bb:cc:dd:ee:ff" =
      ⟨"aa:bb:cc:dd:ee:ff", IdentifierType.mac⟩ :=
  (C8_classifier_total_ordered specEnvBase "aa:bb:cc:dd:ee:ff").2.2.2.1 (by decide)
    (by decide) (by decide)

/-- Claim C10: an identifier classified Unknown is never matched by the
resolveNode scan (which only compares the XName, NID and MAC kinds), so
whenever the inventory query succeeds resolveNode fails with the not-found
error regardless of the inventory contents; consequently, on a cache miss,
GenerateBootScript answers such an identifier with the error-script template,
never a node-specific or minimal script. -/
theorem C10_unknown_identifier :
    (∀ (env : Env) (identifier : String) (nodes : List Node),
        (parseNodeIdentifier env identifier).type = .unknown →
        env.getNodes = .ok nodes →
        resolveNode env (parseNodeIdentifier env identifier) =
          .error ("node not found for identifier " ++ identifier)) ∧
    (∀ (env : Env) (cache : ScriptCache) (now : Nat) (identifier profile : String),
        (parseNodeIdentifier env identifier).type = .unknown →
        cache.get now (generateCacheKey identifier profile) = none →
        ∃ msg, GenerateBootScript env cache now identifier profile =
          ⟨generateErrorScript ("Node resolution failed: " ++ msg), none, cache, false⟩) := by
  constructor
  · intro env identifier nodes hunk hok
    have h := resolveNode_unknown_of_ok hunk hok
    rwa [parseNodeIdentifier_value] at h
  · intro env cache now identifier profile hunk hmiss
    obtain ⟨msg, hres⟩ := @resolveNode_unknown env _ hunk
    exact ⟨msg, by simp only [GenerateBootScript, hmiss, hres]⟩

/-- Witness for C10 at a concrete input: an identifier matching none of the
three syntaxes. -/
theorem C10_unknown_identifier_witness :
    resolveNode specEnvBase (parseNodeIdentifier specEnvBase "bad-id") =
      Except.error ("node not found for identifier " ++ "bad-id") ∧
    ∃ msg, GenerateBootScript specEnvBase emptyCache 0 "bad-id" "" =
      ⟨generateErrorScript ("Node resolution failed: " ++ msg), none, emptyCache, false⟩ :=
  ⟨C10_unknown_identifier.1 specEnvBase "bad-id" [] (by decide) rfl,
    C10_unknown_identifier.2 specEnvBase emptyCache 0 "bad-id" "" (by decide) rfl⟩

/-- Claim C9: Validate accepts a specification exactly when the kernel field
is non-empty and passes URL/path validation, every host passes
XName-or-default validation, every MAC is syntactically valid, a non-empty
initrd passes optional URL/path validation, the priority lies in [0, 100],
and at least one of the four targeting lists is non-empty; stated for
arbitrary behaviour of the external validation predicates. -/
theorem C9_validate_iff :
    ∀ (vXNameOrDefault vMAC vURLOrPath vURLOrPathOptional : String → Bool)
      (r : BootConfiguration),
      Validate vXNameOrDefault vMAC vURLOrPath vURLOrPathOptional r = none ↔
        (r.spec.kernel ≠ "" ∧
          (∀ host ∈ r.spec.hosts, vXNameOrDefault host = true) ∧
          (∀ mac ∈ r.spec.macs, vMAC mac = true) ∧
          vURLOrPath r.spec.kernel = true ∧
          (r.spec.initrd ≠ "" → vURLOrPathOptional r.spec.initrd = true) ∧
          0 ≤ r.spec.priority ∧ r.spec.priority ≤ 100 ∧
          (r.spec.hosts ≠ [] ∨ r.spec.macs ≠ [] ∨ r.spec.nids ≠ [] ∨
            r.spec.groups ≠ [])) := by
  intro vX vM vU vUO r
  unfold Validate
  by_cases h1 : r.spec.kernel = ""
  · simp [h1]
  · simp only [if_neg h1]
    cases hfh : r.spec.hosts.find? (fun host => !vX host) with
    | some host =>
      have hmem := List.mem_of_find?_eq_some hfh
      have hval := List.find?_some hfh
      constructor
      · intro hcontra
        exact Option.noConfusion hcontra
      · rintro ⟨_, hall, _⟩
        simp [hall host hmem] at hval
    | none =>
      have hallh : ∀ host ∈ r.spec.hosts, vX host = true := by
        intro host hm
        have h := List.find?_eq_none.mp hfh host hm
        simpa using h
      cases hfm : r.spec.macs.find? (fun mac => !vM mac) with
      | some mac =>
        have hmem := List.mem_of_find?_eq_some hfm
        have hval := List.find?_some hfm
        constructor
        · intro hcontra
          exact Option.noConfusion hcontra
        · rintro ⟨_, _, hall, _⟩
          simp [hall mac hmem] at hval
      | none =>
        have hallm : ∀ mac ∈ r.spec.macs, vM mac = true := by
          intro mac hm
          have h := List.find?_eq_none.mp hfm mac hm
          simpa using h
        constructor
        · intro h
          by_cases h3 : vU r.spec.kernel = false
          · rw [if_pos h3] at h
            exact Option.noConfusion h
          · rw [if_neg h3] at h
            by_cases h4 : r.spec.initrd ≠ "" ∧ vUO r.spec.initrd = false
            · rw [if_pos h4] at h
              exact Option.noConfusion h
            · rw [if_neg h4] at h
              by_cases h5 : r.spec.priority < 0 ∨ 100 < r.spec.priority
              · rw [if_pos h5] at h
                exact Option.noConfusion h
              · rw [if_neg h5] at h
                by_cases h6 : r.spec.hosts = [] ∧ r.spec.macs = [] ∧ r.spec.nids = [] ∧
                    r.spec.groups = []
                · rw [if_pos h6] at h
                  exact Option.noConfusion h
                · refine ⟨h1, hallh, hallm, ?_, ?_, ?_, ?_, ?_⟩
                  · cases hk : vU r.spec.kernel with
                    | false => exact absurd hk h3
                    | true => rfl
                  · intro hi
                    cases hk : vUO r.spec.initrd with
                    | false => exact absurd ⟨hi, hk⟩ h4
                    | true => rfl
                  · omega
                  · omega
                  · by_cases ha : r.spec.hosts = []
                    · by_cases hb : r.spec.macs = []
                      · by_cases hc : r.spec.nids = []
                        · exact Or.inr (Or.inr (Or.inr (fun hd => h6 ⟨ha, hb, hc, hd⟩)))
                        · exact Or.inr (Or.inr (Or.inl hc))
                      · exact Or.inr (Or.inl hb)
                    · exact Or.inl ha
        · rintro ⟨_, _, _, h4, h5, h6, h7, h8⟩
          rw [if_neg (show ¬vU r.spec.kernel = false from fun hc =>
                Bool.false_ne_true (hc.symm.trans h4)),
              if_neg (show ¬(r.spec.initrd ≠ "" ∧ vUO r.spec.initrd = false) from
                fun hc => Bool.false_ne_true (hc.2.symm.trans (h5 hc.1))),
              if_neg (show ¬(r.spec.priority < 0 ∨ 100 < r.spec.priority) by omega),
              if_neg (show ¬(r.spec.hosts = [] ∧ r.spec.macs = [] ∧ r.spec.nids = [] ∧
                  r.spec.groups = []) from fun hc => by
                rcases h8 with h | h | h | h
                · exact h hc.1
                · exact h hc.2.1
                · exact h hc.2.2.1
                · exact h hc.2.2.2)]
